import Mathlib

/-!
# Verification of the NIFITS extension-object model and container codec

Shallow embedding of `src/nifits/io/oifits.py`: FITS headers as association
lists of cards, table and array payloads with exact (rational) scalars,
the per-kind `from_hdu` / `to_hdu` codecs, the `OI_STATION` value object,
the `OI_TARGET` table builder, and the `nifits` container's
`from_nifits` / `to_nifits` orchestration.

Python exceptions are modelled with an explicit error type; a raised
exception is an `Except.error` result. Machine floats carry no arithmetic
in the code paths verified here (values are only moved, split and
re-merged), so scalars are embedded as exact rationals.
-/

deriving instance DecidableEq for Except

/-- Python exceptions raised by the embedded code paths.
`structural` stands for the failed `assert` in
`NI_EXTENSION_CPX_ARRAY.from_hdu` (the spec's StructuralError). -/
inductive PyErr where
  | structural
  | attributeError
  | typeError
  | nameError
  | keyError
  deriving DecidableEq, Repr

/-- A FITS header-card value: string or integer (comments are dropped;
no claim observes them). -/
inductive HVal where
  | str (s : String)
  | int (i : Int)
  deriving DecidableEq, Repr

/-- `astropy.io.fits.Header`: an ordered mapping of keyword to value. -/
abbrev Header : Type := List (String × HVal)

/-- `header[key] = v`: overwrite the first card with that keyword,
else append (astropy `Header.__setitem__`). -/
def hset : Header → String → HVal → Header
  | [], k, v => [(k, v)]
  | (k', v') :: rest, k, v =>
      if k' = k then (k, v) :: rest else (k', v') :: hset rest k v

/-- `header[key]` lookup: first card with that keyword. -/
def hget : Header → String → Option HVal
  | [], _ => none
  | (k', v') :: rest, k => if k' = k then some v' else hget rest k

/-- A cell value of an astropy `Table` column (`int`, `str` or `float`
dtype; floats are embedded as exact rationals). -/
inductive Value where
  | int (i : Int)
  | str (s : String)
  | float (q : ℚ)
  deriving DecidableEq, Repr

/-- A column dtype of an astropy `Table`. -/
inductive Dtype where
  | int
  | str
  | float
  deriving DecidableEq, Repr

/-- `astropy.table.Table`: named, typed columns and a list of rows. -/
structure Table where
  names : List String
  dtypes : List Dtype
  rows : List (List Value)
  deriving DecidableEq, Repr

/-- `Table.add_row(vals)`: append one row. -/
def Table.add_row (t : Table) (vals : List Value) : Table :=
  { t with rows := t.rows ++ [vals] }

/-- The payload of a FITS HDU: an N-dimensional numeric array, kept as its
list of leading-axis slices (each slice flattened to its scalars), or a
binary-table payload. -/
inductive HduData where
  | image (planes : List (List ℚ))
  | btable (t : Table)
  deriving DecidableEq, Repr

/-- A FITS HDU as the container sees it: header plus payload.  The
extension name is carried by the association stored in the HDU list. -/
structure HduObj where
  header : Header
  data : HduData
  deriving DecidableEq, Repr

/-- Modelled from the spec: the collaborator FITS library's header
regeneration for a binary-table HDU (`fits.hdu.BinTableHDU(name=..,
data=.., header=..)`), which is not part of this repository.  The
shape-dependent keywords are recomputed from the current payload
dimensions and the retained header's other cards pass through. -/
def bintable_header (name : String) (t : Table) (h : Header) : Header :=
  [("XTENSION", HVal.str "BINTABLE"),
   ("NAXIS2", HVal.int t.rows.length),
   ("TFIELDS", HVal.int t.names.length),
   ("EXTNAME", HVal.str name)] ++
  h.filter (fun c =>
    c.1 ∉ ["XTENSION", "NAXIS2", "TFIELDS", "EXTNAME"])

/-- Modelled from the spec: the collaborator FITS library's header
regeneration for an image HDU (`fits.hdu.ImageHDU(name=.., data=..,
header=..)`): shape-dependent keywords recomputed from the payload,
other cards passed through. -/
def image_header (name : String) (d : HduData) (h : Header) : Header :=
  [("XTENSION", HVal.str "IMAGE"),
   ("NAXIS1", HVal.int (match d with
      | HduData.image planes => planes.length
      | HduData.btable t => t.rows.length)),
   ("EXTNAME", HVal.str name)] ++
  h.filter (fun c => c.1 ∉ ["XTENSION", "NAXIS1", "EXTNAME"])

/-- `NI_EXTENSION`: generic table extension state — a data table and a
retained header.  `name` stands for the subclass's `name` class
attribute (`"OI_ARRAY"`, `"OI_WAVELENGTH"`, ...). -/
structure NI_EXTENSION where
  name : String
  data_table : Table
  header : Header
  deriving DecidableEq, Repr

/-- `NI_EXTENSION.from_hdu`: `data_table = Table(hdu.data); header =
hdu.header`.  An image payload does not form a table; that mismatch
cannot arise for the table-kind extensions of a NIFITS source and is
mapped to a TypeError. -/
def NI_EXTENSION.from_hdu (name : String) (hdu : HduObj) :
    Except PyErr NI_EXTENSION :=
  match hdu.data with
  | HduData.btable t => Except.ok ⟨name, t, hdu.header⟩
  | HduData.image _ => Except.error PyErr.typeError

/-- `NI_EXTENSION.to_hdu`: build a `BinTableHDU` from the current name,
table and header, then `self.header = myhdu.header` — the emitted HDU
first, the mutated object second. -/
def NI_EXTENSION.to_hdu (e : NI_EXTENSION) : HduObj × NI_EXTENSION :=
  let h' := bintable_header e.name e.data_table e.header
  (⟨h', HduData.btable e.data_table⟩, { e with header := h' })

/-- `NI_EXTENSION_ARRAY`: generic real-array extension state.
`data_array` keeps `hdu.data` verbatim.  `name` is the `name` class
attribute of the instance's operative class when that class defines
one: `NI_KMAT` does, but the operative `NI_KCOV` class — re-defined at
oifits.py:619 with only a docstring, shadowing the line-478 definition
that carried `name = "NI_KCOV"` — does not, and neither does any of its
bases, so its instances have no `name` attribute (`none`). -/
structure NI_EXTENSION_ARRAY where
  name : Option String
  data_array : HduData
  header : Header
  deriving DecidableEq, Repr

/-- `NI_EXTENSION_ARRAY.from_hdu`: `data_array = hdu.data; header =
hdu.header` — total, no shape check, and the `name` attribute is never
read. -/
def NI_EXTENSION_ARRAY.from_hdu (name : Option String) (hdu : HduObj) :
    Except PyErr NI_EXTENSION_ARRAY :=
  Except.ok ⟨name, hdu.data, hdu.header⟩

/-- `NI_EXTENSION_ARRAY.to_hdu`: `fits.hdu.ImageHDU(name=self.name,
...)` reads `self.name` first — an instance whose class defines no
`name` attribute (the operative NI_KCOV) raises AttributeError there;
otherwise build the `ImageHDU`, then `self.header = myhdu.header`. -/
def NI_EXTENSION_ARRAY.to_hdu (e : NI_EXTENSION_ARRAY) :
    Except PyErr (HduObj × NI_EXTENSION_ARRAY) :=
  match e.name with
  | none => Except.error PyErr.attributeError
  | some nm =>
      let h' := image_header nm e.data_array e.header
      Except.ok (⟨h', e.data_array⟩, { e with header := h' })

/-- `NI_EXTENSION_CPX_ARRAY`: complex-array extension state.  The array
is kept as complex values (pairs of exact real components: first the
real part, second the imaginary part), flattened over the inner axes. -/
structure NI_EXTENSION_CPX_ARRAY where
  name : String
  data_array : List (ℚ × ℚ)
  header : Header
  deriving DecidableEq, Repr

/-- `NI_EXTENSION_CPX_ARRAY.from_hdu`:
`assert hdu.data.shape[0] == 2` (a failure is the spec's
StructuralError), then `data_array = hdu.data[0] + 1j*hdu.data[1]` —
plane 0 gives the real parts, plane 1 the imaginary parts, merged with
no arithmetic on the stored scalars.  For a binary-table payload
`shape[0]` is the row count, and the merge of two table rows does not
produce a complex array (TypeError; unreachable for NIFITS sources). -/
def NI_EXTENSION_CPX_ARRAY.from_hdu (name : String) (hdu : HduObj) :
    Except PyErr NI_EXTENSION_CPX_ARRAY :=
  match hdu.data with
  | HduData.image planes =>
      if hp : planes.length = 2 then
        Except.ok ⟨name,
          (planes.get ⟨0, by omega⟩).zip (planes.get ⟨1, by omega⟩),
          hdu.header⟩
      else Except.error PyErr.structural
  | HduData.btable t =>
      if t.rows.length = 2 then Except.error PyErr.typeError
      else Except.error PyErr.structural

/-- `NI_EXTENSION_CPX_ARRAY.to_hdu`:
`real_valued_data = np.array([data.real, data.imag])` — a 2-plane real
array — then build an `ImageHDU` and `self.header = myhdu.header`. -/
def NI_EXTENSION_CPX_ARRAY.to_hdu (e : NI_EXTENSION_CPX_ARRAY) :
    HduObj × NI_EXTENSION_CPX_ARRAY :=
  let realValued : HduData :=
    HduData.image [e.data_array.map Prod.fst, e.data_array.map Prod.snd]
  let h' := image_header e.name realValued e.header
  (⟨h', realValued⟩, { e with header := h' })

/-- `array_eq(a, b)`: length test, then element-wise equality (as the
module-level helper is written; note it is never reached, see
`OI_STATION.eq`). -/
def array_eq (a b : List (Option ℚ)) : Bool :=
  if a.length ≠ b.length then false else a = b

/-- `OI_STATION`: the single-row telescope/station value object.  Python
scalar fields default to `None`, hence the `Option` types; `staxyz`
defaults to `[None, None, None]`. -/
structure OI_STATION where
  revision : Int
  tel_name : Option String
  sta_name : Option String
  diameter : Option ℚ
  staxyz : List (Option ℚ)
  fov : Option ℚ
  fovtype : Option String
  deriving DecidableEq, Repr

/-- `OI_STATION.__init__`: stores the fields; when `revision >= 2` the
field-of-view fields keep the caller's values, otherwise
`self.fov = self.fovtype = None`.  (`revision > 2` additionally emits a
non-fatal UserWarning, which has no effect on the stored state.) -/
def OI_STATION.init (tel_name : Option String) (sta_name : Option String)
    (diameter : Option ℚ) (staxyz : List (Option ℚ)) (fov : Option ℚ)
    (fovtype : Option String) (revision : Int) : OI_STATION :=
  { revision := revision
    tel_name := tel_name
    sta_name := sta_name
    diameter := diameter
    staxyz := staxyz
    fov := if revision ≥ 2 then fov else none
    fovtype := if revision ≥ 2 then fovtype else none }

/-- `OI_STATION.__eq__`: `not (revision differs or tel_name differs or
sta_name differs or diameter differs or not _array_eq(staxyz, ...) or
fov differs or fovtype differs)`.  Python's `or` short-circuits, so a
difference in one of the first four fields returns `False`; once the
evaluation reaches the position-vector comparison it calls `_array_eq`,
a name the module never defines (the helper is spelled `array_eq`), so
a NameError is raised. -/
def OI_STATION.eq (s o : OI_STATION) : Except PyErr Bool :=
  if s.revision ≠ o.revision then Except.ok false
  else if s.tel_name ≠ o.tel_name then Except.ok false
  else if s.sta_name ≠ o.sta_name then Except.ok false
  else if s.diameter ≠ o.diameter then Except.ok false
  else Except.error PyErr.nameError

/-- `OI_TARGET` is an `NI_EXTENSION` with `name = "OI_TARGET"`. -/
abbrev OI_TARGET := NI_EXTENSION

/-- `OI_TARGET.from_scratch()`: an empty table with the fixed 18-column
typed schema; the header takes the dataclass default (empty). -/
def OI_TARGET.from_scratch : OI_TARGET :=
  { name := "OI_TARGET"
    data_table :=
      { names := ["TARGET_ID", "TARGET", "RAEP0", "DECEP0",
                  "EQUINOX", "RA_ERR", "DEC_ERR",
                  "SYSVEL", "VELTYP", "VELDEF",
                  "PMRA", "PMDEC", "PMRA_ERR", "PMDEC_ERR",
                  "PARALLAX", "PARA_ERR", "SPECTYP", "CATEGORY"]
        dtypes := [Dtype.int, Dtype.str, Dtype.float, Dtype.float,
                   Dtype.float, Dtype.float, Dtype.float,
                   Dtype.float, Dtype.str, Dtype.str,
                   Dtype.float, Dtype.float, Dtype.float, Dtype.float,
                   Dtype.float, Dtype.float, Dtype.str, Dtype.str]
        rows := [] }
    header := [] }

/-- `OI_TARGET.add_target(...)`: append exactly one row holding the
18 field values, in schema order; no check of any kind is made on the
identifier column. -/
def OI_TARGET.add_target (t : OI_TARGET) (target_id : Int)
    (target : String) (raep0 decep0 equinox ra_err dec_err sysvel : ℚ)
    (veltyp veldef : String) (pmra pmdec pmra_err pmdec_err : ℚ)
    (parallax para_err : ℚ) (spectyp category : String) : OI_TARGET :=
  { t with data_table := t.data_table.add_row (
      [Value.int target_id, Value.str target, Value.float raep0,
       Value.float decep0, Value.float equinox, Value.float ra_err,
       Value.float dec_err, Value.float sysvel, Value.str veltyp,
       Value.str veldef, Value.float pmra, Value.float pmdec,
       Value.float pmra_err, Value.float pmdec_err,
       Value.float parallax, Value.float para_err, Value.str spectyp,
       Value.str category]) }

/-- The fixed, ordered kind-name list (`NIFITS_EXTENSIONS`). -/
def NIFITS_EXTENSIONS : List String :=
  ["OI_ARRAY", "OI_WAVELENGTH", "NI_CATM", "NI_FOV", "NI_KMAT",
   "NI_MOD", "NI_IOUT", "NI_KIOUT", "NI_KCOV"]

/-- The positional static/dynamic classification (`STATIC_EXTENSIONS`):
entry `i` tells whether kind `i` of `NIFITS_EXTENSIONS` is static. -/
def STATIC_EXTENSIONS : List Bool :=
  [true, true, true, true, false, false, false, false, false]

/-- Numpy boolean-mask indexing `l[mask]`: the elements at positions
where the mask is true, in order. -/
def boolean_mask {α : Type} (l : List α) (mask : List Bool) : List α :=
  ((l.zip mask).filter (fun p => p.2)).map Prod.fst

/-- A populated extension slot: one of the three payload-codec states.
`getclass` binds OI_ARRAY, OI_WAVELENGTH, NI_FOV, NI_MOD, NI_IOUT and
NI_KIOUT to table states, NI_KMAT and NI_KCOV to real-array states, and
NI_CATM to the complex-array state. -/
inductive ExtObj where
  | table (e : NI_EXTENSION)
  | arr (e : NI_EXTENSION_ARRAY)
  | cpx (e : NI_EXTENSION_CPX_ARRAY)
  deriving DecidableEq, Repr

/-- `theobj.to_hdu()`: dispatch to the slot's codec; the emitted HDU.
The table and complex-array codecs never fail (every operative class of
those kinds defines `name`); an array object of the operative NI_KCOV
class raises AttributeError. -/
def ExtObj.to_hdu : ExtObj → Except PyErr HduObj
  | ExtObj.table e => Except.ok (NI_EXTENSION.to_hdu e).1
  | ExtObj.arr e => (NI_EXTENSION_ARRAY.to_hdu e).map Prod.fst
  | ExtObj.cpx e => Except.ok (NI_EXTENSION_CPX_ARRAY.to_hdu e).1

/-- `getclass(anext).from_hdu(hdulist[anext])`: name-to-class dispatch
over the fixed kind list, then that class's decode.  For `"NI_KCOV"`
the operative class is the second definition (oifits.py:619), which
has no `name` class attribute, so the decoded instance carries none. -/
def getclass_from_hdu (name : String) (hdu : HduObj) :
    Except PyErr ExtObj :=
  if name = "NI_CATM" then
    (NI_EXTENSION_CPX_ARRAY.from_hdu name hdu).map ExtObj.cpx
  else if name = "NI_KMAT" then
    (NI_EXTENSION_ARRAY.from_hdu (some "NI_KMAT") hdu).map ExtObj.arr
  else if name = "NI_KCOV" then
    (NI_EXTENSION_ARRAY.from_hdu none hdu).map ExtObj.arr
  else
    (NI_EXTENSION.from_hdu name hdu).map ExtObj.table

/-- The `nifits` container.  The declared dataclass fields are `header`
plus nine extension slots, all defaulting to `None` — note that
`oi_array` is NOT among them: an `oi_array` attribute exists only when
a caller sets it dynamically, hence its outer `Option` (outer `none` =
attribute absent; `some none` = attribute set to `None`). -/
structure nifits where
  header : Header
  oi_array : Option (Option ExtObj)
  ni_catm : Option ExtObj
  ni_fov : Option ExtObj
  ni_kmat : Option ExtObj
  oi_wavelength : Option ExtObj
  oi_target : Option ExtObj
  ni_mod : Option ExtObj
  ni_iout : Option ExtObj
  ni_kiout : Option ExtObj
  ni_kcov : Option ExtObj
  deriving DecidableEq, Repr

/-- `nifits()` with every field at its dataclass default (`None`). -/
def nifits.default : nifits :=
  { header := [], oi_array := none, ni_catm := none, ni_fov := none,
    ni_kmat := none, oi_wavelength := none, oi_target := none,
    ni_mod := none, ni_iout := none, ni_kiout := none, ni_kcov := none }

/-- `hasattr(self, a)` on a `nifits` instance: every declared dataclass
field is an attribute even when it holds `None`; `oi_array` is an
attribute only when dynamically set. -/
def nifits.hasattr (s : nifits) (a : String) : Bool :=
  if a = "oi_array" then s.oi_array.isSome
  else ["header", "ni_catm", "ni_fov", "ni_kmat", "oi_wavelength",
        "oi_target", "ni_mod", "ni_iout", "ni_kiout", "ni_kcov"].contains a

/-- `getattr(self, a)` for the extension-slot attributes (the `header`
attribute holds the primary header and is never dispatched here). -/
def nifits.getattr (s : nifits) (a : String) : Option ExtObj :=
  if a = "oi_array" then s.oi_array.join
  else if a = "ni_catm" then s.ni_catm
  else if a = "ni_fov" then s.ni_fov
  else if a = "ni_kmat" then s.ni_kmat
  else if a = "oi_wavelength" then s.oi_wavelength
  else if a = "oi_target" then s.oi_target
  else if a = "ni_mod" then s.ni_mod
  else if a = "ni_iout" then s.ni_iout
  else if a = "ni_kiout" then s.ni_kiout
  else if a = "ni_kcov" then s.ni_kcov
  else none

/-- Python's `str.lower()`, tabulated on the fixed kind names (the only
strings the container ever lowers); any other string is returned
unchanged. -/
def lower_name : String → String
  | "OI_ARRAY" => "oi_array"
  | "OI_WAVELENGTH" => "oi_wavelength"
  | "NI_CATM" => "ni_catm"
  | "NI_FOV" => "ni_fov"
  | "NI_KMAT" => "ni_kmat"
  | "NI_MOD" => "ni_mod"
  | "NI_IOUT" => "ni_iout"
  | "NI_KIOUT" => "ni_kiout"
  | "NI_KCOV" => "ni_kcov"
  | "OI_TARGET" => "oi_target"
  | s => s

/-- The extension subset selected by `to_nifits`:
`if static_only: NIFITS_EXTENSIONS[STATIC_EXTENSIONS]
elif dynamic_only: NIFITS_EXTENSIONS[~STATIC_EXTENSIONS]
else: NIFITS_EXTENSIONS`. -/
def to_nifits_extension_list (static_only dynamic_only : Bool) :
    List String :=
  if static_only then boolean_mask NIFITS_EXTENSIONS STATIC_EXTENSIONS
  else if dynamic_only then
    boolean_mask NIFITS_EXTENSIONS (STATIC_EXTENSIONS.map not)
  else NIFITS_EXTENSIONS

/-- The per-kind loop of `to_nifits`: for each selected kind name, if
`hasattr(self, name.lower())` then fetch the attribute and call its
`to_hdu` — calling it on `None` raises AttributeError, as does `to_hdu`
itself on an object with no `name` attribute (operative NI_KCOV) — and
only then set the manifest card `"Included"` on the primary header;
else set `"Not included"` and continue.  Result: the final primary
header and the appended extension HDUs, in order. -/
def to_nifits_go (s : nifits) :
    Header → List String → Except PyErr (Header × List HduObj)
  | h, [] => Except.ok (h, [])
  | h, n :: rest =>
      if s.hasattr (lower_name n) then
        match s.getattr (lower_name n) with
        | some obj =>
            match ExtObj.to_hdu obj with
            | Except.ok hdu =>
                (to_nifits_go s (hset h n (HVal.str "Included"))
                  rest).map (fun r => (r.1, hdu :: r.2))
            | Except.error err => Except.error err
        | none => Except.error PyErr.attributeError
      else
        to_nifits_go s (hset h n (HVal.str "Not included")) rest

/-- `nifits.to_nifits(static_only, dynamic_only)`: fresh primary HDU
(its header modelled as initially empty), then the per-kind loop over
the selected kind subset.  The `filename` / `static_hash` / `writefile`
/ `overwrite` parameters only gate the separately-scoped disk write and
never change the produced record sequence, so they are not modelled. -/
def nifits.to_nifits (s : nifits) (static_only dynamic_only : Bool) :
    Except PyErr (Header × List HduObj) :=
  to_nifits_go s [] (to_nifits_extension_list static_only dynamic_only)

/-- The per-kind loop of `from_nifits`: for each kind of the fixed list
present (by name) in the source HDU list, decode it with its class's
`from_hdu` and record it in `obj_dict` under the lowercased name; a
decode exception propagates immediately.  Absent kinds only print a
notice. -/
def from_nifits_go (hdus : List (String × HduObj)) :
    List String → List (String × ExtObj) →
    Except PyErr (List (String × ExtObj))
  | [], acc => Except.ok acc
  | n :: rest, acc =>
      match List.lookup n hdus with
      | some hdu =>
          match getclass_from_hdu n hdu with
          | Except.ok obj =>
              from_nifits_go hdus rest (acc ++ [(lower_name n, obj)])
          | Except.error e => Except.error e
      | none => from_nifits_go hdus rest acc

/-- `nifits.from_nifits(hdulist)`: read the primary header
(`hdulist["PRIMARY"]`, KeyError if absent), run the per-kind decode
loop, then `cls(**obj_dict)`.  Since `oi_array` is not a declared
dataclass field, an `oi_array` key in `obj_dict` (an OI_ARRAY HDU
present in the source) makes the constructor call raise TypeError. -/
def nifits.from_nifits (hdulist : List (String × HduObj)) :
    Except PyErr nifits :=
  match List.lookup "PRIMARY" hdulist with
  | none => Except.error PyErr.keyError
  | some primary =>
      match from_nifits_go hdulist NIFITS_EXTENSIONS [] with
      | Except.error e => Except.error e
      | Except.ok obj_dict =>
          if (List.lookup "oi_array" obj_dict).isSome then
            Except.error PyErr.typeError
          else Except.ok
            { header := primary.header
              oi_array := none
              ni_catm := List.lookup "ni_catm" obj_dict
              ni_fov := List.lookup "ni_fov" obj_dict
              ni_kmat := List.lookup "ni_kmat" obj_dict
              oi_wavelength := List.lookup "oi_wavelength" obj_dict
              oi_target := List.lookup "oi_target" obj_dict
              ni_mod := List.lookup "ni_mod" obj_dict
              ni_iout := List.lookup "ni_iout" obj_dict
              ni_kiout := List.lookup "ni_kiout" obj_dict
              ni_kcov := List.lookup "ni_kcov" obj_dict }

/-- A container populated with exactly the four static kinds (the
array-geometry slot set dynamically, since `oi_array` is not a declared
field) and nothing else. -/
def s4 : nifits :=
  { nifits.default with
      oi_array := some (some (ExtObj.table ⟨"OI_ARRAY",
        ⟨["TEL_NAME"], [Dtype.str], [[Value.str "UT1"]]⟩, []⟩)),
      oi_wavelength := some (ExtObj.table ⟨"OI_WAVELENGTH",
        ⟨["EFF_WAVE"], [Dtype.float], [[Value.float 1]]⟩, []⟩),
      ni_catm := some (ExtObj.cpx ⟨"NI_CATM", [(1, 2)], []⟩),
      ni_fov := some (ExtObj.table ⟨"NI_FOV",
        ⟨["INDEX"], [Dtype.int], [[Value.int 0]]⟩, []⟩) }

/-- A container populated with exactly the five dynamic kinds, holding
the very objects `from_nifits` produces: in particular the `ni_kcov`
slot holds an instance of the operative NI_KCOV class, which has no
`name` attribute. -/
def sDyn : nifits :=
  { nifits.default with
      ni_kmat := some (ExtObj.arr ⟨some "NI_KMAT",
        HduData.image [[1]], []⟩),
      ni_mod := some (ExtObj.table ⟨"NI_MOD",
        ⟨["MJD"], [Dtype.float], [[Value.float 0]]⟩, []⟩),
      ni_iout := some (ExtObj.table ⟨"NI_IOUT",
        ⟨["value"], [Dtype.float], [[Value.float 1]]⟩, []⟩),
      ni_kiout := some (ExtObj.table ⟨"NI_KIOUT",
        ⟨["value"], [Dtype.float], [[Value.float 1]]⟩, []⟩),
      ni_kcov := some (ExtObj.arr ⟨none, HduData.image [[1]], []⟩) }

/-- A source whose transfer-matrix record has a leading axis of
length 3 (Scenario C) and which also carries an NI_KMAT record. -/
def cexHdus : List (String × HduObj) :=
  [("PRIMARY", ⟨[], HduData.image []⟩),
   ("NI_CATM", ⟨[], HduData.image [[1], [2], [3]]⟩),
   ("NI_KMAT", ⟨[], HduData.image [[5]]⟩)]

/-- The same source with the malformed transfer-matrix record removed. -/
def cexNoCatm : List (String × HduObj) :=
  [("PRIMARY", ⟨[], HduData.image []⟩),
   ("NI_KMAT", ⟨[], HduData.image [[5]]⟩)]

/-- A concrete complex-array extension state used as a witness input. -/
def eC3 : NI_EXTENSION_CPX_ARRAY :=
  ⟨"NI_CATM", [(1, 2), (3, 4)], [("UNITS", HVal.str "ADU")]⟩

/-! ## Helper lemmas -/

lemma hget_hset_of_ne (h : Header) (k k' : String) (v : HVal)
    (hne : k' ≠ k) : hget (hset h k v) k' = hget h k' := by
  induction h with
  | nil => simp [hset, hget, hne.symm]
  | cons c rest ih =>
      obtain ⟨k0, v0⟩ := c
      by_cases hc : k0 = k
      · subst hc
        simp [hset, hget, hne.symm]
      · simp [hset, hget, hc, ih]

lemma hget_foldl_hset_not_mem (names : List String) (h0 : Header)
    (f : String → HVal) (k : String) (hk : k ∉ names) :
    hget (names.foldl (fun h n => hset h n (f n)) h0) k = hget h0 k := by
  induction names generalizing h0 with
  | nil => rfl
  | cons n rest ih =>
      have hkn : k ≠ n := fun he => hk (he ▸ List.mem_cons_self n rest)
      have hkr : k ∉ rest := fun hmem => hk (List.mem_cons_of_mem _ hmem)
      simp only [List.foldl_cons]
      rw [ih _ hkr, hget_hset_of_ne h0 n k (f n) hkn]

/-! ## C7: complex-array decode shape check -/

/-- C7: `NI_EXTENSION_CPX_ARRAY.from_hdu` on an array record fails, and
fails with the structural error, exactly when the record's leading
dimension is not 2; with leading dimension 2 no error is raised. -/
theorem cpx_from_hdu_structural_iff (name : String) (h : Header)
    (planes : List (List ℚ)) :
    (NI_EXTENSION_CPX_ARRAY.from_hdu name ⟨h, HduData.image planes⟩ =
        Except.error PyErr.structural ↔ planes.length ≠ 2)
    ∧ ((∃ err, NI_EXTENSION_CPX_ARRAY.from_hdu name
          ⟨h, HduData.image planes⟩ = Except.error err) ↔
        planes.length ≠ 2) := by
  unfold NI_EXTENSION_CPX_ARRAY.from_hdu
  by_cases hp : planes.length = 2
  · simp [hp]
  · simp [hp]

/-- C7 witness: a 3-plane record fails structurally; a 2-plane record
does not (the iff instantiated at concrete records). -/
theorem cpx_from_hdu_structural_iff_witness :
    (NI_EXTENSION_CPX_ARRAY.from_hdu "NI_CATM"
        ⟨[], HduData.image [[1], [2], [3]]⟩ =
          Except.error PyErr.structural ↔
      ([[(1 : ℚ)], [2], [3]] : List (List ℚ)).length ≠ 2) ∧
    ((∃ err, NI_EXTENSION_CPX_ARRAY.from_hdu "NI_CATM"
        ⟨[], HduData.image [[1], [2], [3]]⟩ = Except.error err) ↔
      ([[(1 : ℚ)], [2], [3]] : List (List ℚ)).length ≠ 2) :=
  cpx_from_hdu_structural_iff "NI_CATM" [] [[1], [2], [3]]

/-! ## C3: complex codec invertibility -/

/-- C3: decoding the encoding of any complex array reproduces the array
exactly, and encoding the decoding of any valid 2-plane real array
(equal-shape planes) reproduces the 2-plane array exactly: the
split/merge introduces no change to the stored scalars. -/
theorem cpx_codec_roundtrip (e : NI_EXTENSION_CPX_ARRAY) (name : String)
    (h : Header) (p0 p1 : List ℚ) :
    ((NI_EXTENSION_CPX_ARRAY.from_hdu e.name
        (NI_EXTENSION_CPX_ARRAY.to_hdu e).1).map (fun e2 => e2.data_array) =
      Except.ok e.data_array)
    ∧ (p0.length = p1.length →
      (NI_EXTENSION_CPX_ARRAY.from_hdu name
          ⟨h, HduData.image [p0, p1]⟩).map
        (fun e2 => (NI_EXTENSION_CPX_ARRAY.to_hdu e2).1.data) =
      Except.ok (HduData.image [p0, p1])) := by
  constructor
  · simp only [NI_EXTENSION_CPX_ARRAY.to_hdu, NI_EXTENSION_CPX_ARRAY.from_hdu]
    rw [dif_pos (by simp)]
    simp [Except.map, List.zip_map']
  · intro hlen
    simp only [NI_EXTENSION_CPX_ARRAY.from_hdu]
    rw [dif_pos (by simp)]
    simp [Except.map, NI_EXTENSION_CPX_ARRAY.to_hdu, List.get,
      List.map_fst_zip p0 p1 (le_of_eq hlen),
      List.map_snd_zip p0 p1 (le_of_eq hlen.symm)]

/-- C3 witness: the round trips at a concrete complex array and a
concrete 2-plane real array. -/
theorem cpx_codec_roundtrip_witness :
    (([(5 : ℚ), 6] : List ℚ).length = ([(7 : ℚ), 8] : List ℚ).length) ∧
    ((NI_EXTENSION_CPX_ARRAY.from_hdu eC3.name
        (NI_EXTENSION_CPX_ARRAY.to_hdu eC3).1).map
          (fun e2 => e2.data_array) = Except.ok eC3.data_array) ∧
    ((NI_EXTENSION_CPX_ARRAY.from_hdu "NI_CATM"
        ⟨[], HduData.image [[5, 6], [7, 8]]⟩).map
      (fun e2 => (NI_EXTENSION_CPX_ARRAY.to_hdu e2).1.data) =
      Except.ok (HduData.image [[5, 6], [7, 8]])) :=
  ⟨by decide, (cpx_codec_roundtrip eC3 "NI_CATM" [] [5, 6] [7, 8]).1,
   (cpx_codec_roundtrip eC3 "NI_CATM" [] [5, 6] [7, 8]).2 (by decide)⟩

/-! ## C4: kind list and static/dynamic partition -/

/-- C4 counterexample: the fixed kind list does not contain the
target-list kind — `"OI_TARGET"` is absent from `NIFITS_EXTENSIONS`
(the spec's table lists ten kinds including target-list; the code's
list has nine), so the list does not cover the spec's table. -/
theorem oi_target_missing_from_kind_list :
    NIFITS_EXTENSIONS.contains "OI_TARGET" = false := by decide

/-- C4 as amended: the fixed kind list has nine kinds; target-list is
not among them.  The static/dynamic classification is positional and
total over the list: the static subset is exactly the first four kinds,
the dynamic subset exactly the remaining five, and every kind of the
list belongs to exactly one of the two subsets. -/
theorem nifits_extension_partition :
    NIFITS_EXTENSIONS.contains "OI_TARGET" = false ∧
    NIFITS_EXTENSIONS.length = 9 ∧
    STATIC_EXTENSIONS.length = 9 ∧
    boolean_mask NIFITS_EXTENSIONS STATIC_EXTENSIONS =
      ["OI_ARRAY", "OI_WAVELENGTH", "NI_CATM", "NI_FOV"] ∧
    boolean_mask NIFITS_EXTENSIONS (STATIC_EXTENSIONS.map not) =
      ["NI_KMAT", "NI_MOD", "NI_IOUT", "NI_KIOUT", "NI_KCOV"] ∧
    NIFITS_EXTENSIONS.all (fun k =>
      ((boolean_mask NIFITS_EXTENSIONS STATIC_EXTENSIONS).contains k &&
       !((boolean_mask NIFITS_EXTENSIONS
            (STATIC_EXTENSIONS.map not)).contains k)) ||
      (!((boolean_mask NIFITS_EXTENSIONS STATIC_EXTENSIONS).contains k) &&
       (boolean_mask NIFITS_EXTENSIONS
          (STATIC_EXTENSIONS.map not)).contains k)) = true := by decide

/-! ## C5: station equality -/

/-- C5: `OI_STATION.__eq__` raises NameError (the helper is defined as
`array_eq` but called as `_array_eq`) as soon as the comparison reaches
the position vector — in particular for two stations with equal scalar
fields, and for two stations differing only in one coordinate of the
position vector (where the claim expects an unequal verdict).  Only a
difference in one of the four fields tested before the position vector
short-circuits into a boolean result. -/
theorem oi_station_eq_raises_nameError :
    (OI_STATION.eq
        (OI_STATION.init (some "UT1") (some "U1") (some 8)
          [some 0, some 1, some 2] none none 1)
        (OI_STATION.init (some "UT1") (some "U1") (some 8)
          [some 0, some 1, some 2] none none 1) =
      Except.error PyErr.nameError) ∧
    (OI_STATION.eq
        (OI_STATION.init (some "UT1") (some "U1") (some 8)
          [some 0, some 1, some 2] none none 1)
        (OI_STATION.init (some "UT1") (some "U1") (some 8)
          [some 0, some 1, some 99] none none 1) =
      Except.error PyErr.nameError) ∧
    (OI_STATION.eq
        (OI_STATION.init (some "UT1") (some "U1") (some 8)
          [some 0, some 1, some 2] none none 1)
        (OI_STATION.init (some "UT2") (some "U1") (some 8)
          [some 0, some 1, some 2] none none 1) =
      Except.ok false) := by decide

/-! ## C6: revision < 2 unsets the field of view -/

/-- C6: for every constructor input with `revision < 2`, the stored
field-of-view value and mode are unset regardless of what the caller
passed. -/
theorem oi_station_revision_lt2_unsets_fov
    (tel sta : Option String) (diameter : Option ℚ)
    (staxyz : List (Option ℚ)) (fov : Option ℚ) (fovtype : Option String)
    (revision : Int) (hrev : revision < 2) :
    (OI_STATION.init tel sta diameter staxyz fov fovtype revision).fov =
        none ∧
    (OI_STATION.init tel sta diameter staxyz fov fovtype
        revision).fovtype = none := by
  have h2 : ¬ ((2 : Int) ≤ revision) := not_le.mpr hrev
  constructor <;> simp [OI_STATION.init, h2]

/-- C6 witness: revision 1 with a non-empty field-of-view value yields
an unset stored field of view. -/
theorem oi_station_revision_lt2_unsets_fov_witness :
    ((1 : Int) < 2) ∧
    ((OI_STATION.init (some "UT1") (some "S1") (some 8)
        [some 0, some 0, some 0] (some 5) (some "FWHM") 1).fov = none ∧
     (OI_STATION.init (some "UT1") (some "S1") (some 8)
        [some 0, some 0, some 0] (some 5) (some "FWHM") 1).fovtype =
        none) :=
  ⟨by decide, oi_station_revision_lt2_unsets_fov (some "UT1") (some "S1")
    (some 8) [some 0, some 0, some 0] (some 5) (some "FWHM") 1
    (by decide)⟩

/-! ## C8: target list construction -/

/-- C8: `from_scratch` yields the empty table with exactly the fixed
18-column typed schema; every `add_target` call appends exactly the one
row built from its arguments; two successive `add_target` calls with
`target_id = 0` both append, with no uniqueness check on the identifier
column. -/
theorem oi_target_from_scratch_add_target :
    (OI_TARGET.from_scratch.data_table.rows = [] ∧
     OI_TARGET.from_scratch.data_table.names =
       ["TARGET_ID", "TARGET", "RAEP0", "DECEP0",
        "EQUINOX", "RA_ERR", "DEC_ERR",
        "SYSVEL", "VELTYP", "VELDEF",
        "PMRA", "PMDEC", "PMRA_ERR", "PMDEC_ERR",
        "PARALLAX", "PARA_ERR", "SPECTYP", "CATEGORY"] ∧
     OI_TARGET.from_scratch.data_table.dtypes =
       [Dtype.int, Dtype.str, Dtype.float, Dtype.float,
        Dtype.float, Dtype.float, Dtype.float,
        Dtype.float, Dtype.str, Dtype.str,
        Dtype.float, Dtype.float, Dtype.float, Dtype.float,
        Dtype.float, Dtype.float, Dtype.str, Dtype.str] ∧
     OI_TARGET.from_scratch.data_table.names.length = 18) ∧
    (∀ (t : OI_TARGET) (target_id : Int) (target : String)
       (raep0 decep0 equinox ra_err dec_err sysvel : ℚ)
       (veltyp veldef : String)
       (pmra pmdec pmra_err pmdec_err parallax para_err : ℚ)
       (spectyp category : String),
      (OI_TARGET.add_target t target_id target raep0 decep0 equinox
          ra_err dec_err sysvel veltyp veldef pmra pmdec pmra_err
          pmdec_err parallax para_err spectyp category).data_table.rows =
        t.data_table.rows ++
          [[Value.int target_id, Value.str target, Value.float raep0,
            Value.float decep0, Value.float equinox, Value.float ra_err,
            Value.float dec_err, Value.float sysvel, Value.str veltyp,
            Value.str veldef, Value.float pmra, Value.float pmdec,
            Value.float pmra_err, Value.float pmdec_err,
            Value.float parallax, Value.float para_err,
            Value.str spectyp, Value.str category]]) ∧
    ((OI_TARGET.add_target (OI_TARGET.add_target OI_TARGET.from_scratch
        0 "MyTarget" 0 0 0 0 0 0 "" "" 0 0 0 0 0 0 "" "")
        0 "MyTarget" 0 0 0 0 0 0 "" "" 0 0 0 0 0 0 ""
        "").data_table.rows.length = 2 ∧
     (OI_TARGET.add_target (OI_TARGET.add_target OI_TARGET.from_scratch
        0 "MyTarget" 0 0 0 0 0 0 "" "" 0 0 0 0 0 0 "" "")
        0 "MyTarget" 0 0 0 0 0 0 "" "" 0 0 0 0 0 0 ""
        "").data_table.rows.map (fun r => r.head?) =
       [some (Value.int 0), some (Value.int 0)]) := by
  refine ⟨by decide, ?_, by decide⟩
  intros
  rfl

/-! ## C9: encode resynchronizes the cached header -/

/-- C9: `NI_EXTENSION.to_hdu` overwrites the object's stored header with
the emitted record's header (whose shape-dependent `NAXIS2` keyword is
recomputed from the current in-memory row count), while the payload and
name are unchanged and the emitted record carries that same payload. -/
theorem ni_extension_to_hdu_header_resync (e : NI_EXTENSION) :
    ((NI_EXTENSION.to_hdu e).2).header = ((NI_EXTENSION.to_hdu e).1).header ∧
    ((NI_EXTENSION.to_hdu e).2).data_table = e.data_table ∧
    ((NI_EXTENSION.to_hdu e).2).name = e.name ∧
    (NI_EXTENSION.to_hdu e).1.data = HduData.btable e.data_table ∧
    hget ((NI_EXTENSION.to_hdu e).2).header "NAXIS2" =
      some (HVal.int e.data_table.rows.length) := by
  refine ⟨rfl, rfl, rfl, rfl, ?_⟩
  simp [NI_EXTENSION.to_hdu, bintable_header, hget]

/-! ## C10: simultaneous static-only and dynamic-only selection -/

/-- C10: when both `static_only` and `dynamic_only` are requested,
`static_only` wins — the selected subset is the static one, identical
to a `static_only`-alone request and different from a
`dynamic_only`-alone request. -/
theorem to_nifits_static_only_precedence :
    to_nifits_extension_list true true =
      boolean_mask NIFITS_EXTENSIONS STATIC_EXTENSIONS ∧
    to_nifits_extension_list true true =
      to_nifits_extension_list true false ∧
    to_nifits_extension_list true true =
      ["OI_ARRAY", "OI_WAVELENGTH", "NI_CATM", "NI_FOV"] ∧
    (to_nifits_extension_list true true ==
      to_nifits_extension_list false true) = false := by decide

/-! ## C1: save's manifest flags -/

lemma to_hdu_error_is_attr (obj : ExtObj) (e : PyErr)
    (h : ExtObj.to_hdu obj = Except.error e) :
    e = PyErr.attributeError := by
  cases obj with
  | table e2 => simp [ExtObj.to_hdu] at h
  | cpx e2 => simp [ExtObj.to_hdu] at h
  | arr e2 =>
      cases hn : e2.name with
      | none =>
          simp [ExtObj.to_hdu, NI_EXTENSION_ARRAY.to_hdu, hn,
            Except.map] at h
          exact h.symm
      | some nm =>
          simp [ExtObj.to_hdu, NI_EXTENSION_ARRAY.to_hdu, hn,
            Except.map] at h

lemma to_nifits_go_ok (s : nifits) (names : List String) : ∀ h0 : Header,
    (∀ n ∈ names, s.hasattr (lower_name n) = true →
      ∃ obj hdu, s.getattr (lower_name n) = some obj ∧
        ExtObj.to_hdu obj = Except.ok hdu) →
    ∃ hdus, to_nifits_go s h0 names =
      Except.ok (names.foldl (fun h n => hset h n (HVal.str
        (if s.hasattr (lower_name n) then "Included" else "Not included")))
        h0, hdus) := by
  induction names with
  | nil => exact fun h0 _ => ⟨[], rfl⟩
  | cons n rest ih =>
      intro h0 hpop
      by_cases ha : s.hasattr (lower_name n) = true
      · obtain ⟨obj, hdu, hobj, hhdu⟩ :=
          hpop n (List.mem_cons_self n rest) ha
        obtain ⟨hdus, hrec⟩ := ih (hset h0 n (HVal.str "Included"))
          (fun m hm => hpop m (List.mem_cons_of_mem _ hm))
        refine ⟨hdu :: hdus, ?_⟩
        simp only [to_nifits_go, ha, if_true, hobj, hhdu, hrec,
          Except.map, List.foldl_cons]
      · have ha' : s.hasattr (lower_name n) = false :=
          Bool.not_eq_true _ ▸ eq_false_of_ne_true ha
        obtain ⟨hdus, hrec⟩ := ih (hset h0 n (HVal.str "Not included"))
          (fun m hm => hpop m (List.mem_cons_of_mem _ hm))
        refine ⟨hdus, ?_⟩
        simp only [to_nifits_go, ha', Bool.false_eq_true, if_false, hrec,
          List.foldl_cons]

lemma to_nifits_go_err (s : nifits) (names : List String) : ∀ h0 : Header,
    (∃ n ∈ names, s.hasattr (lower_name n) = true ∧
      (s.getattr (lower_name n) = none ∨
       ∃ obj, s.getattr (lower_name n) = some obj ∧
         ExtObj.to_hdu obj = Except.error PyErr.attributeError)) →
    to_nifits_go s h0 names = Except.error PyErr.attributeError := by
  induction names with
  | nil => intro h0 hex; simp at hex
  | cons n rest ih =>
      intro h0 hex
      by_cases ha : s.hasattr (lower_name n) = true
      · cases hg : s.getattr (lower_name n) with
        | none => simp [to_nifits_go, ha, hg]
        | some obj =>
            cases hh : ExtObj.to_hdu obj with
            | error err =>
                have herr : err = PyErr.attributeError :=
                  to_hdu_error_is_attr obj err hh
                subst herr
                simp [to_nifits_go, ha, hg, hh]
            | ok hdu =>
                have hex' : ∃ m ∈ rest,
                    s.hasattr (lower_name m) = true ∧
                    (s.getattr (lower_name m) = none ∨
                     ∃ obj2, s.getattr (lower_name m) = some obj2 ∧
                       ExtObj.to_hdu obj2 =
                         Except.error PyErr.attributeError) := by
                  obtain ⟨m, hm, hmh, hmc⟩ := hex
                  rcases List.mem_cons.mp hm with rfl | hm'
                  · rcases hmc with hmg | ⟨obj2, hobj2, hhdu2⟩
                    · rw [hg] at hmg; cases hmg
                    · rw [hg] at hobj2
                      cases hobj2
                      rw [hh] at hhdu2; cases hhdu2
                  · exact ⟨m, hm', hmh, hmc⟩
                simp [to_nifits_go, ha, hg, hh, ih _ hex', Except.map]
      · have ha' : s.hasattr (lower_name n) = false :=
          Bool.not_eq_true _ ▸ eq_false_of_ne_true ha
        have hex' : ∃ m ∈ rest, s.hasattr (lower_name m) = true ∧
            (s.getattr (lower_name m) = none ∨
             ∃ obj2, s.getattr (lower_name m) = some obj2 ∧
               ExtObj.to_hdu obj2 =
                 Except.error PyErr.attributeError) := by
          obtain ⟨m, hm, hmh, hmc⟩ := hex
          rcases List.mem_cons.mp hm with rfl | hm'
          · rw [hmh] at ha'; cases ha'
          · exact ⟨m, hm', hmh, hmc⟩
        simp [to_nifits_go, ha', ih _ hex']

/-- C1 counterexample: saving the container that holds exactly the four
static kinds with static-only selection succeeds but gives the
remaining kinds no manifest flag at all (`NI_KMAT` is absent from the
produced primary header, not marked "Not included"); a full save of a
container with unpopulated declared slots does not mark them
"Not included" non-fatally — it raises AttributeError (`None.to_hdu()`),
because every declared slot passes the `hasattr` test even when it
holds `None`; and a dynamic-only save of a container whose five dynamic
slots are all populated (with the objects `from_nifits` produces) also
raises AttributeError, because encoding the populated output-covariance
slot reads the `name` attribute that the operative NI_KCOV class
lacks. -/
theorem to_nifits_claim_counterexample :
    ((nifits.to_nifits s4 true false).map (fun r => hget r.1 "NI_KMAT") =
      Except.ok none) ∧
    ((nifits.to_nifits s4 true false).map (fun r => hget r.1 "NI_CATM") =
      Except.ok (some (HVal.str "Included"))) ∧
    (nifits.to_nifits nifits.default false false =
      Except.error PyErr.attributeError) ∧
    (nifits.to_nifits sDyn false true =
      Except.error PyErr.attributeError) := by decide

/-- C1 as amended: save iterates over the selected kinds only.  When
every selected kind whose attribute exists holds a populated object
whose encode succeeds, save succeeds and flags each selected kind on
the primary header — "Included" for those kinds, "Not included" when
the attribute is missing, which is possible only for the array-geometry
kind since every other slot is a declared field.  When some selected
kind's attribute exists but holds `None`, or holds a populated object
whose encode raises (the operative NI_KCOV class lacks the `name`
attribute its `to_hdu` reads, so a populated output-covariance slot
always does), save raises AttributeError.  Kinds outside the selection
receive no flag. -/
theorem to_nifits_manifest_flags (s : nifits)
    (static_only dynamic_only : Bool) :
    ((∀ n ∈ to_nifits_extension_list static_only dynamic_only,
        s.hasattr (lower_name n) = true →
        ∃ obj hdu, s.getattr (lower_name n) = some obj ∧
          ExtObj.to_hdu obj = Except.ok hdu) →
      ∃ hdus, nifits.to_nifits s static_only dynamic_only =
        Except.ok ((to_nifits_extension_list static_only
            dynamic_only).foldl (fun h n => hset h n (HVal.str
          (if s.hasattr (lower_name n) then "Included"
           else "Not included"))) [], hdus))
    ∧ ((∃ n ∈ to_nifits_extension_list static_only dynamic_only,
          s.hasattr (lower_name n) = true ∧
          (s.getattr (lower_name n) = none ∨
           ∃ obj, s.getattr (lower_name n) = some obj ∧
             ExtObj.to_hdu obj = Except.error PyErr.attributeError)) →
        nifits.to_nifits s static_only dynamic_only =
          Except.error PyErr.attributeError)
    ∧ (∀ k, k ∉ to_nifits_extension_list static_only dynamic_only →
        hget ((to_nifits_extension_list static_only
            dynamic_only).foldl (fun h n => hset h n (HVal.str
          (if s.hasattr (lower_name n) then "Included"
           else "Not included"))) []) k = none) :=
  ⟨to_nifits_go_ok s _ [], to_nifits_go_err s _ [],
   fun k hk => hget_foldl_hset_not_mem _ [] _ k hk⟩

/-- C1 witness: the amended statement's success part applied to the
four-static-kind container with static-only selection, and its error
part applied to the dynamic-kind container (populated NI_KCOV slot)
with dynamic-only selection. -/
theorem to_nifits_manifest_flags_witness :
    (∃ hdus, nifits.to_nifits s4 true false =
      Except.ok ((to_nifits_extension_list true false).foldl
        (fun h n => hset h n (HVal.str
          (if s4.hasattr (lower_name n) then "Included"
           else "Not included"))) [], hdus)) ∧
    nifits.to_nifits sDyn false true =
      Except.error PyErr.attributeError :=
  ⟨(to_nifits_manifest_flags s4 true false).1 (by
      intro n hn ha
      fin_cases hn
      · exact ⟨_, _, rfl, rfl⟩
      · exact ⟨_, _, rfl, rfl⟩
      · exact ⟨_, _, rfl, rfl⟩
      · exact ⟨_, _, rfl, rfl⟩),
   (to_nifits_manifest_flags sDyn false true).2.1
     ⟨"NI_KCOV", by decide, by decide,
      Or.inr ⟨ExtObj.arr ⟨none, HduData.image [[1]], []⟩, rfl, rfl⟩⟩⟩

/-! ## C2: a malformed payload aborts the whole load -/

lemma from_nifits_go_table_step (hdus : List (String × HduObj))
    (n : String) (rest : List String) (acc : List (String × ExtObj))
    (h1 : n ≠ "NI_CATM") (h2 : n ≠ "NI_KMAT") (h3 : n ≠ "NI_KCOV")
    (htab : ∀ e, List.lookup n hdus = some e →
      ∃ t, e.data = HduData.btable t) :
    ∃ acc', from_nifits_go hdus (n :: rest) acc =
      from_nifits_go hdus rest acc' := by
  cases hl : List.lookup n hdus with
  | none => exact ⟨acc, by simp [from_nifits_go, hl]⟩
  | some e =>
      obtain ⟨t, ht⟩ := htab e hl
      refine ⟨acc ++ [(lower_name n, ExtObj.table ⟨n, t, e.header⟩)], ?_⟩
      simp [from_nifits_go, hl, getclass_from_hdu, h1, h2, h3,
        NI_EXTENSION.from_hdu, ht, Except.map]

lemma from_nifits_go_catm_abort (hdus : List (String × HduObj))
    (rest : List String) (acc : List (String × ExtObj)) (e : HduObj)
    (planes : List (List ℚ))
    (hC : List.lookup "NI_CATM" hdus = some e)
    (himg : e.data = HduData.image planes)
    (hlen : ¬ planes.length = 2) :
    from_nifits_go hdus ("NI_CATM" :: rest) acc =
      Except.error PyErr.structural := by
  simp [from_nifits_go, hC, getclass_from_hdu,
    NI_EXTENSION_CPX_ARRAY.from_hdu, himg, hlen, Except.map]

/-- C2 counterexample: loading a source whose transfer-matrix record
has a leading axis of length 3 raises the structural error for the
whole load — no container is produced and nothing is bound — while the
same source without the malformed record does bind its NI_KMAT record.
The claim's promise that the other kinds present are still decoded and
bound is false. -/
theorem from_nifits_claim_counterexample :
    (nifits.from_nifits cexHdus = Except.error PyErr.structural) ∧
    ((nifits.from_nifits cexNoCatm).map (fun c => c.ni_kmat.isSome) =
      Except.ok true) := by decide

/-- C2 as amended: for every source holding a primary record, whose
array-geometry and wavelength records (if present) carry table
payloads, and whose transfer-matrix record is an array with a leading
axis other than 2, the load raises the structural error for the whole
operation: no container is produced, so no kind of the source is bound
into any slot (the per-kind loop has no exception handler). -/
theorem from_nifits_structural_abort (hdus : List (String × HduObj))
    (hP : (List.lookup "PRIMARY" hdus).isSome = true)
    (hArr : ∀ e, List.lookup "OI_ARRAY" hdus = some e →
      ∃ t, e.data = HduData.btable t)
    (hWav : ∀ e, List.lookup "OI_WAVELENGTH" hdus = some e →
      ∃ t, e.data = HduData.btable t)
    (e : HduObj) (planes : List (List ℚ))
    (hC : List.lookup "NI_CATM" hdus = some e)
    (himg : e.data = HduData.image planes)
    (hlen : ¬ planes.length = 2) :
    nifits.from_nifits hdus = Except.error PyErr.structural := by
  obtain ⟨p, hp⟩ := Option.isSome_iff_exists.mp hP
  have hgo : from_nifits_go hdus NIFITS_EXTENSIONS [] =
      Except.error PyErr.structural := by
    show from_nifits_go hdus ("OI_ARRAY" :: "OI_WAVELENGTH" ::
      "NI_CATM" :: ["NI_FOV", "NI_KMAT", "NI_MOD", "NI_IOUT",
        "NI_KIOUT", "NI_KCOV"]) [] = Except.error PyErr.structural
    obtain ⟨acc1, h1⟩ := from_nifits_go_table_step hdus "OI_ARRAY" _ []
      (by decide) (by decide) (by decide) hArr
    rw [h1]
    obtain ⟨acc2, h2⟩ := from_nifits_go_table_step hdus "OI_WAVELENGTH" _
      acc1 (by decide) (by decide) (by decide) hWav
    rw [h2]
    exact from_nifits_go_catm_abort hdus _ acc2 e planes hC himg hlen
  simp [nifits.from_nifits, hp, hgo]

/-- C2 witness: the amended statement applied to the Scenario C source
(3-plane transfer-matrix record next to an NI_KMAT record). -/
theorem from_nifits_structural_abort_witness :
    nifits.from_nifits cexHdus = Except.error PyErr.structural :=
  from_nifits_structural_abort cexHdus (by decide)
    (by intro e he
        rw [show List.lookup "OI_ARRAY" cexHdus = none from by decide]
          at he
        cases he)
    (by intro e he
        rw [show List.lookup "OI_WAVELENGTH" cexHdus = none
          from by decide] at he
        cases he)
    ⟨[], HduData.image [[1], [2], [3]]⟩ [[1], [2], [3]]
    (by decide) rfl (by decide)
